import Mathlib

/-!
Verification of the finance-newsletter backend (`backend.py`) against its
natural-language specification.

The backend is a linear pipeline: fetch a news feed, filter headlines by
ticker substring, summarise each match (with a per-article fallback),
fetch 30 days of closing prices, align and derive cumulative returns,
assemble a markdown document, and send it by e-mail.

External collaborators (the language model, the feed parser, the price
provider, the e-mail service, the process environment) are modelled as
explicit inputs: fallible calls become `Except`-valued oracles passed in as
arguments, and the price provider's download becomes a concrete `Download`
value.  The Python functions themselves are translated directly.
-/

/-- Substring test on character lists: does `p` occur contiguously in `s`?
Models the Python `in` operator on strings (an empty needle always matches). -/
def substrAux (p : List Char) : List Char → Bool
  | [] => p.isEmpty
  | c :: rest => p.isPrefixOf (c :: rest) || substrAux p rest

/-- `substrB needle hay` models Python `needle in hay` for strings. -/
def substrB (needle hay : String) : Bool :=
  substrAux needle.toList hay.toList

/-- `fetch_yahoo_news` from backend.py: parse the feed (modelled as the
fallible external call `parse`, yielding the entries as (title, link)
pairs), and return the first `n` entries.  The feed URL construction has no
observable effect beyond the oracle and is not modelled. -/
def fetch_yahoo_news (parse : Except Unit (List (String × String)))
    (n : Nat := 20) : Except Unit (List (String × String)) := do
  let entries ← parse
  pure (entries.take n)

/-- `filter_news` from backend.py: upper-case all tickers, then for each
(title, link) article in order scan the upper-cased tickers and emit
`(ticker, title, link)` for the first ticker whose symbol occurs in the
upper-cased title, dropping articles with no match.  The inner
for-loop-with-break is `List.find?`; the outer loop appending at most one
match per article is `List.filterMap`. -/
def filter_news (articles : List (String × String)) (tickers : List String) :
    List (String × String × String) :=
  let upper := tickers.map String.toUpper
  articles.filterMap (fun a =>
    (upper.find? (fun t => substrB t a.1.toUpper)).map (fun t => (t, a.1, a.2)))

/-- The prompt built by `short_summary` in backend.py. -/
def short_summary_prompt (title link : String) : String :=
  "Summarise the following headline & link in 2-3 sentences for an investor.\n" ++
    "TITLE: " ++ title ++ "\nLINK: " ++ link

/-- `short_summary` from backend.py: build the prompt and call the language
model (the fallible oracle `g`, standing for `gpt`). -/
def short_summary (g : String → Except Unit String) (title link : String) :
    Except Unit String :=
  g (short_summary_prompt title link)

/-- The try/except around `short_summary` inside `build_newsletter`:
on any exception the summary falls back to the raw title. -/
def summaryOf (g : String → Except Unit String) (title link : String) : String :=
  match short_summary g title link with
  | .ok s => s
  | .error _ => title

/-- One rendered news entry: `- **{t}** {s}\n  <{link}>\n` from
`build_newsletter`. -/
def render_entry (g : String → Except Unit String)
    (a : String × String × String) : String :=
  "- **" ++ a.1 ++ "** " ++ summaryOf g a.2.1 a.2.2 ++ "\n  <" ++ a.2.2 ++ ">\n"

/-- The `article_block` accumulation loop of `build_newsletter`
(`article_block += ...` over the given articles). -/
def article_block (g : String → Except Unit String)
    (l : List (String × String × String)) : String :=
  l.foldl (fun acc a => acc ++ render_entry g a) ""

/-- The news-highlights section text:
`article_block or 'No relevant news today.'` — the Python `or` on strings
takes the right operand exactly when the block is empty.  The source builds
the block from `matched[:6]`. -/
def newsSection (g : String → Except Unit String)
    (matched : List (String × String × String)) : String :=
  let block := article_block g (matched.take 6)
  if block = "" then "No relevant news today." else block

/-- A summariser oracle that always fails, modelling a language-model
endpoint that raises on every call. -/
def gErr : String → Except Unit String := fun _ => Except.error ()

/-- Seven identical matched articles, one more than the rendering cut-off of
`build_newsletter`. -/
def sevenArticles : List (String × String × String) :=
  List.replicate 7 ("A", "T", "L")

/-- The price provider's download (`yf.download`): a common date index and,
for each ticker the provider knows, its Close column indexed by those dates
(`none` models a NaN cell).  Tickers absent from `cols` model the KeyError
branch of `price_data`. -/
structure Download where
  dates : List Nat
  cols : List (String × List (Option ℚ))
deriving DecidableEq

/-- The `closes` dict built by `price_data`: for each requested ticker in
order, look up its Close column, skipping tickers that raise KeyError. -/
def closesOf (tickers : List String) (d : Download) :
    List (String × List (Option ℚ)) :=
  tickers.filterMap (fun t =>
    (d.cols.find? (fun c => c.1 == t)).map (fun c => (t, c.2)))

/-- `pd.DataFrame(closes)` in row-major form: one row per date of the shared
index, each row holding one cell per surviving column. -/
def rowsOf (dates : List Nat) (closes : List (String × List (Option ℚ))) :
    List (Nat × List (Option ℚ)) :=
  (List.range dates.length).map
    (fun i => (dates.getD i 0, closes.map (fun c => c.2.getD i none)))

/-- `pd.DataFrame(closes).dropna()`: keep only the rows in which every
surviving column has a present (non-NaN) cell. -/
def alignedRows (tickers : List String) (d : Download) :
    List (Nat × List (Option ℚ)) :=
  (rowsOf d.dates (closesOf tickers d)).filter (fun r => r.2.all Option.isSome)

/-- `.round(2)` on a single cell. -/
def round2 (q : ℚ) : ℚ := ((⌊q * 100 + 1 / 2⌋ : ℤ) : ℚ) / 100

/-- Elementwise `close_df / close_df.iloc[0] - 1` on one pair of cells. -/
def divCell (a b : Option ℚ) : Option ℚ :=
  match a, b with
  | some x, some y => some (x / y - 1)
  | _, _ => none

/-- The successful outcome of `price_data`: the aligned close table rounded
to 2 decimals, its column names, and the cumulative-return series the chart
renders (the PNG encoding itself is not modelled). -/
structure PriceResult where
  closeRounded : List (Nat × List (Option ℚ))
  colNames : List String
  cumRet : List (Nat × List (Option ℚ))
deriving DecidableEq

/-- `price_data` from backend.py: error when the download is empty, when no
requested ticker yields a Close column, or when `close_df.iloc[0]` is
indexed on an empty aligned frame (IndexError); otherwise build the rounded
close table and the cumulative-return series. -/
def price_data (tickers : List String) (d : Download) :
    Except String PriceResult :=
  if d.dates.isEmpty || d.cols.isEmpty then
    .error "yfinance returned no data."
  else if (closesOf tickers d).isEmpty then
    .error "No Close column in download."
  else
    match alignedRows tickers d with
    | [] => .error "single positional indexer is out-of-bounds"
    | r0 :: rest =>
      .ok { closeRounded :=
              (r0 :: rest).map (fun r => (r.1, r.2.map (Option.map round2))),
            colNames := (closesOf tickers d).map Prod.fst,
            cumRet :=
              (r0 :: rest).map (fun r => (r.1, List.zipWith divCell r.2 r0.2)) }

/-- Decidable equality of `Except` results, for evaluating the model on
concrete inputs. -/
instance {ε α : Type} [DecidableEq ε] [DecidableEq α] :
    DecidableEq (Except ε α) := fun a b =>
  match a, b with
  | .ok x, .ok y =>
    if h : x = y then .isTrue (by rw [h]) else
      .isFalse (fun hc => h (by injection hc))
  | .error x, .error y =>
    if h : x = y then .isTrue (by rw [h]) else
      .isFalse (fun hc => h (by injection hc))
  | .ok _, .error _ => .isFalse (fun hc => Except.noConfusion hc)
  | .error _, .ok _ => .isFalse (fun hc => Except.noConfusion hc)

/-- A concrete provider download: full data for ticker "A" on two dates,
nothing for any other ticker. -/
def dW : Download := ⟨[5, 6], [("A", [some 1, some 2])]⟩

/-- The value `price_data ["A", "B"] dW` computes to. -/
def presW : PriceResult :=
  { closeRounded := [(5, [some 1]), (6, [some 2])], colNames := ["A"],
    cumRet := [(5, [some 0]), (6, [some 1])] }

/-- Display form of one rational cell, used for the markdown price table. -/
def cell_str (o : Option ℚ) : String :=
  match o with
  | some q => toString q.num ++ "/" ++ toString q.den
  | none => "NaN"

/-- `prices.tail(1).T.to_markdown()`: the last aligned row transposed, one
markdown line per ticker. -/
def table_md (res : PriceResult) : String :=
  String.join
    ((res.colNames.zip (res.closeRounded.getLastD (0, [])).2).map
      (fun p => "| " ++ p.1 ++ " | " ++ cell_str p.2 ++ " |\n"))

/-- The failure modes of `build_newsletter`. -/
inductive BuildError
  | gen
  | feed
  | price (msg : String)
deriving DecidableEq

/-- `build_newsletter` from backend.py: macro overview (the oracle `gmac`,
standing for the dated `macro_overview` call), feed fetch, ticker filter,
per-article summaries with fallback, price table, and the final markdown
document.  Any summariser failure is absorbed inside `newsSection`; the
other three calls propagate as `BuildError`. -/
def build_newsletter (gmac : Except Unit String)
    (parse : Except Unit (List (String × String)))
    (g : String → Except Unit String) (d : Download)
    (tickers : List String) (region : String) :
    Except BuildError (String × PriceResult) :=
  match gmac with
  | .error _ => .error .gen
  | .ok macroText =>
    match fetch_yahoo_news parse with
    | .error _ => .error .feed
    | .ok news =>
      let matched := filter_news news tickers
      match price_data tickers d with
      | .error m => .error (.price m)
      | .ok prices =>
        let md := "## Macroeconomic Overview\n" ++ macroText ++ "\n\n" ++
          "## Latest 30-day Close (last row) – " ++ region ++ "\n" ++
          table_md prices ++ "\n\n" ++
          "## News Highlights\n" ++ newsSection g matched
        .ok (md, prices)

/-- The failure modes of `send_newsletter`. -/
inductive SendError
  | config
  | delivery
deriving DecidableEq

/-- The e-mail service's response on success. -/
structure Receipt where
  statusCode : Nat
  body : String
  headers : String
deriving DecidableEq

/-- The `Mail(...)` object built by `send_newsletter`. -/
structure MailMsg where
  from_email : String
  to_emails : String
  subject : String
  html_content : String
deriving DecidableEq

/-- `md_body.replace(chr(10), '<br>')`. -/
def replaceNewlines (s : String) : String := s.replace "\n" "<br>"

/-- The inline chart image tag, present exactly when `img64` is non-empty. -/
def img_tag (img64 : String) : String :=
  if img64 ≠ "" then
    "<img src=\"data:image/png;base64," ++ img64 ++ "\" width=\"600\">"
  else ""

/-- The HTML body assembled by `send_newsletter`. -/
def html_of (md_body img64 : String) : String :=
  "<html><body>" ++ replaceNewlines md_body ++ img_tag img64 ++ "</body></html>"

/-- The full message submitted to the e-mail service. -/
def msg_of (to_email md_body img64 : String) : MailMsg :=
  { from_email := "luis.kerner@icloud.com",
    to_emails := to_email,
    subject := "Your Personalised Financial Newsletter",
    html_content := html_of md_body img64 }

/-- `send_newsletter` from backend.py.  `sgKeyEnv` models
`os.getenv("SENDGRID_API_KEY", "")` (with its `""` default) and `svc` the
external SendGrid client.  The Python function prints the response's status
code, body and headers and returns `None`: the result pair is (returned
value, printed lines). -/
def send_newsletter (sgKeyEnv : Option String)
    (svc : MailMsg → Except Unit Receipt)
    (to_email md_body img64 : String) :
    Except SendError (Option Receipt × List String) :=
  let sg_key := sgKeyEnv.getD ""
  if sg_key = "" then .error .config
  else
    match svc (msg_of to_email md_body img64) with
    | .error _ => .error .delivery
    | .ok r => .ok (none, [toString r.statusCode, r.body, r.headers])

/-! ### Helper lemmas -/

theorem article_block_foldl (g : String → Except Unit String) (acc : String)
    (l : List (String × String × String)) :
    l.foldl (fun acc a => acc ++ render_entry g a) acc =
      acc ++ article_block g l := by
  induction l generalizing acc with
  | nil => simp [article_block]
  | cons a l ih =>
    simp only [List.foldl_cons, article_block]
    rw [ih (acc ++ render_entry g a), ih ("" ++ render_entry g a)]
    rw [String.empty_append, String.append_assoc]

theorem article_block_cons (g : String → Except Unit String)
    (a : String × String × String) (l : List (String × String × String)) :
    article_block g (a :: l) = render_entry g a ++ article_block g l := by
  unfold article_block
  simp only [List.foldl_cons]
  rw [article_block_foldl, String.empty_append]
  rfl

theorem article_block_append (g : String → Except Unit String)
    (l₁ l₂ : List (String × String × String)) :
    article_block g (l₁ ++ l₂) = article_block g l₁ ++ article_block g l₂ := by
  unfold article_block
  rw [List.foldl_append, article_block_foldl]
  rfl

theorem article_block_eq_join (g : String → Except Unit String)
    (l : List (String × String × String)) :
    article_block g l = String.join (l.map (render_entry g)) := by
  unfold article_block String.join
  rw [List.foldl_map]

/-! ### Theorems -/

/-- C1: `filter_news` emits at most `|F|` matched articles, preserves the
input order of `F` (it is a `filterMap` over `F`), each input article yields
at most one output entry, the ticker assigned is the upper-casing of the
first element of `T` (in `T`'s order) whose upper-cased symbol is a
substring of the article's upper-cased title, and articles whose title
contains no ticker of `T` are dropped. -/
theorem filter_news_characterization (F : List (String × String))
    (T : List String) :
    filter_news F T =
      F.filterMap (fun a =>
        (T.find? (fun t => substrB t.toUpper a.1.toUpper)).map
          (fun t => (t.toUpper, a.1, a.2))) ∧
    (filter_news F T).length ≤ F.length := by
  constructor
  · unfold filter_news
    simp only [List.find?_map, Option.map_map, Function.comp_def]
  · unfold filter_news
    exact List.length_filterMap_le _ _

theorem render_entry_length_pos (g : String → Except Unit String)
    (a : String × String × String) : 0 < (render_entry g a).length := by
  unfold render_entry
  simp only [String.length_append]
  have h4 : ("- **" : String).length = 4 := rfl
  omega

theorem article_block_cons_ne_empty (g : String → Except Unit String)
    (a : String × String × String) (l : List (String × String × String)) :
    article_block g (a :: l) ≠ "" := by
  rw [article_block_cons]
  intro h
  have hlen := congrArg String.length h
  rw [String.length_append] at hlen
  have hpos := render_entry_length_pos g a
  have h0 : ("" : String).length = 0 := rfl
  omega

/-- C5 (amended): the news-highlights section contains exactly one rendered
entry (ticker, summary, link) for each of the first six matched articles, in
matched order; when the matched set is empty it equals the fixed placeholder
"No relevant news today.". -/
theorem newsSection_first_six (g : String → Except Unit String)
    (m : List (String × String × String)) :
    newsSection g m =
      if m = [] then "No relevant news today."
      else String.join ((m.take 6).map (render_entry g)) := by
  cases m with
  | nil => rfl
  | cons a l =>
    have h6 : (a :: l).take 6 = a :: l.take 5 := rfl
    have hne : article_block g ((a :: l).take 6) ≠ "" := by
      rw [h6]; exact article_block_cons_ne_empty g a (l.take 5)
    show (if article_block g ((a :: l).take 6) = "" then "No relevant news today."
          else article_block g ((a :: l).take 6)) = _
    rw [if_neg hne, if_neg (List.cons_ne_nil a l), article_block_eq_join]

/-- C5 counterexample: with seven matched articles the assembled section is
not one entry per matched article — the matched set is non-empty and the
section differs from the rendering of all seven entries. -/
theorem newsSection_seven_cex :
    newsSection gErr sevenArticles ≠
      String.join (sevenArticles.map (render_entry gErr)) ∧
    sevenArticles ≠ [] := by
  decide

/-- C10: the news-highlights section depends only on the first six matched
articles; any article beyond the sixth is silently dropped from the
document. -/
theorem newsSection_take_six (g : String → Except Unit String)
    (m : List (String × String × String)) :
    newsSection g m = newsSection g (m.take 6) ∧
    (∀ extra, m.length = 6 → newsSection g (m ++ extra) = newsSection g m) := by
  constructor
  · show _ = (if article_block g ((m.take 6).take 6) = "" then
        "No relevant news today." else article_block g ((m.take 6).take 6))
    rw [List.take_take, Nat.min_self]
    rfl
  · intro extra hm
    show (if article_block g ((m ++ extra).take 6) = "" then
        "No relevant news today." else article_block g ((m ++ extra).take 6)) = _
    rw [List.take_append_of_le_length (by omega)]
    rfl

/-- C10 witness: with six matched articles already present, appending a
seventh leaves the rendered section unchanged. -/
theorem newsSection_take_six_witness :
    newsSection gErr (List.replicate 6 ("A", "T", "L") ++ [("B", "U", "M")]) =
      newsSection gErr (List.replicate 6 ("A", "T", "L")) :=
  (newsSection_take_six gErr (List.replicate 6 ("A", "T", "L"))).2
    [("B", "U", "M")] (by decide)

/-- C3: when the summarisation call for a processed matched article fails,
the assembled document renders that article with its raw title as the
summary, and the pipeline continues: whether `build_newsletter` succeeds is
entirely independent of the summariser oracle. -/
theorem summary_fallback (g : String → Except Unit String)
    (t title link : String) (matched : List (String × String × String))
    (hg : short_summary g title link = Except.error ())
    (hm : (t, title, link) ∈ matched.take 6) :
    (∃ pre post, newsSection g matched =
      pre ++ ("- **" ++ t ++ "** " ++ title ++ "\n  <" ++ link ++ ">\n") ++ post) ∧
    ∀ (gmac : Except Unit String) (parse : Except Unit (List (String × String)))
      (d : Download) (tickers : List String) (region : String)
      (g' : String → Except Unit String),
      (build_newsletter gmac parse g d tickers region).isOk =
        (build_newsletter gmac parse g' d tickers region).isOk := by
  constructor
  · obtain ⟨l1, l2, hsplit⟩ := List.mem_iff_append.mp hm
    have hentry : render_entry g (t, title, link) =
        "- **" ++ t ++ "** " ++ title ++ "\n  <" ++ link ++ ">\n" := by
      unfold render_entry summaryOf
      rw [hg]
    have hne : article_block g (matched.take 6) ≠ "" := by
      obtain ⟨a, l, h⟩ := List.exists_cons_of_ne_nil (List.ne_nil_of_mem hm)
      rw [h]
      exact article_block_cons_ne_empty g a l
    refine ⟨article_block g l1, article_block g l2, ?_⟩
    show (if article_block g (matched.take 6) = "" then "No relevant news today."
          else article_block g (matched.take 6)) = _
    rw [if_neg hne, hsplit, article_block_append, article_block_cons, hentry]
    simp only [String.append_assoc]
  · intro gmac parse d tickers region g'
    unfold build_newsletter
    cases gmac with
    | error e => rfl
    | ok mt =>
      cases hf : fetch_yahoo_news parse with
      | error e => rfl
      | ok news =>
        cases hp : price_data tickers d with
        | error m => rfl
        | ok pr => rfl

/-- C3 witness: a concrete failing summariser, and one matched article whose
rendered entry carries the raw title. -/
theorem summary_fallback_witness :
    (∃ pre post, newsSection gErr [("A", "T", "L")] =
      pre ++ ("- **" ++ "A" ++ "** " ++ "T" ++ "\n  <" ++ "L" ++ ">\n") ++ post) ∧
    ∀ (gmac : Except Unit String) (parse : Except Unit (List (String × String)))
      (d : Download) (tickers : List String) (region : String)
      (g' : String → Except Unit String),
      (build_newsletter gmac parse gErr d tickers region).isOk =
        (build_newsletter gmac parse g' d tickers region).isOk :=
  summary_fallback gErr "A" "T" "L" [("A", "T", "L")] rfl (by decide)

/-- C6: a feed-source failure (the external parse raising) propagates out of
`fetch_yahoo_news` unchanged, while a well-formed feed with an empty article
set is not an error and yields the empty sequence. -/
theorem fetch_yahoo_news_errors (n : Nat) :
    fetch_yahoo_news (Except.error ()) n = Except.error () ∧
    fetch_yahoo_news (Except.ok []) n = Except.ok [] := by
  constructor
  · rfl
  · simp [fetch_yahoo_news]

/-- C2 counterexample: a download holding one ticker whose Close column is a
single NaN cell.  The download is non-empty and the ticker does yield a
closing-price series, yet `price_data` raises (the IndexError of
`close_df.iloc[0]` on the empty aligned frame), contradicting the claimed
"if and only if". -/
theorem price_data_error_cex :
    (price_data ["A"] ⟨[0], [("A", [(none : Option ℚ)])]⟩).isOk = false ∧
    (⟨[0], [("A", [(none : Option ℚ)])]⟩ : Download).dates ≠ [] ∧
    (⟨[0], [("A", [(none : Option ℚ)])]⟩ : Download).cols ≠ [] ∧
    closesOf ["A"] ⟨[0], [("A", [(none : Option ℚ)])]⟩ ≠ [] := by
  decide



/-- C2 (amended): `price_data` raises exactly when the download is empty,
when no requested ticker yields a closing-price series, or when the aligned
table is left with no rows after dropping rows with missing values; when it
succeeds, the tickers lacking a closing-price series are silently omitted:
the returned columns are exactly the requested tickers that yielded one. -/
theorem price_data_error_iff (T : List String) (d : Download) :
    ((price_data T d).isOk = false ↔
      d.dates = [] ∨ d.cols = [] ∨ closesOf T d = [] ∨ alignedRows T d = []) ∧
    (∀ res, price_data T d = Except.ok res →
      res.colNames = (closesOf T d).map Prod.fst) := by
  constructor
  · unfold price_data
    split
    · rename_i h1
      have h1' : d.dates = [] ∨ d.cols = [] := by
        rcases Bool.or_eq_true_iff.mp h1 with h | h
        · exact Or.inl (by simpa using h)
        · exact Or.inr (by simpa using h)
      exact iff_of_true rfl (by tauto)
    · rename_i h1
      have h1' : ¬d.dates = [] ∧ ¬d.cols = [] := by
        constructor <;> intro hc <;> exact h1 (by simp [hc])
      split
      · rename_i h2
        exact iff_of_true rfl (Or.inr (Or.inr (Or.inl (by simpa using h2))))
      · rename_i h2
        have h2' : ¬closesOf T d = [] := fun hc => h2 (by simp [hc])
        split
        · rename_i h3
          exact iff_of_true rfl (Or.inr (Or.inr (Or.inr h3)))
        · rename_i r0 rest h3
          refine iff_of_false (fun hbad => Bool.noConfusion hbad) ?_
          rintro (hc | hc | hc | hc)
          · exact h1'.1 hc
          · exact h1'.2 hc
          · exact h2' hc
          · rw [h3] at hc
            exact List.cons_ne_nil r0 rest hc
  · intro res h
    unfold price_data at h
    split at h
    · exact Except.noConfusion h
    · split at h
      · exact Except.noConfusion h
      · split at h
        · exact Except.noConfusion h
        · rename_i h1 h2 r0 rest h3
          injection h with h4
          rw [← h4]

/-- Evaluation of `price_data` on the concrete download `dW`. -/
theorem price_data_dW_eval : price_data ["A", "B"] dW = Except.ok presW := by
  simp +decide [price_data, dW, presW, closesOf, alignedRows, rowsOf, round2,
    divCell, List.range_succ]
  norm_num

/-- C2 witness: with "A" carrying full data and "B" unknown to the provider,
`price_data` succeeds and the returned columns are exactly ["A"]. -/
theorem price_data_error_iff_witness :
    presW.colNames = (closesOf ["A", "B"] dW).map Prod.fst :=
  (price_data_error_iff ["A", "B"] dW).2 presW price_data_dW_eval

/-- C7: every row of the aligned close table returned by `price_data` has
exactly one cell per column (so all columns have the same number of rows and,
in this row-major form, share the single date index carried by the rows) and
no cell is missing; the cumulative-return series carries the same date
index. -/
theorem price_table_aligned (T : List String) (d : Download)
    (res : PriceResult) (h : price_data T d = Except.ok res) :
    (∀ r ∈ res.closeRounded,
      r.2.length = res.colNames.length ∧ ∀ o ∈ r.2, o.isSome = true) ∧
    res.cumRet.map Prod.fst = res.closeRounded.map Prod.fst := by
  unfold price_data at h
  split at h
  · exact Except.noConfusion h
  · split at h
    · exact Except.noConfusion h
    · split at h
      · exact Except.noConfusion h
      · rename_i h1 h2 r0 rest h3
        injection h with h4
        subst h4
        constructor
        · intro r hr
          simp only [List.mem_map] at hr
          obtain ⟨r', hr', rfl⟩ := hr
          have hmem : r' ∈ alignedRows T d := by rw [h3]; exact hr'
          unfold alignedRows at hmem
          have hfilter := List.of_mem_filter hmem
          have hrows : r' ∈ rowsOf d.dates (closesOf T d) :=
            List.mem_of_mem_filter hmem
          have hlen : r'.2.length = (closesOf T d).length := by
            unfold rowsOf at hrows
            simp only [List.mem_map] at hrows
            obtain ⟨i, hi, hr'eq⟩ := hrows
            rw [← hr'eq]
            simp
          constructor
          · simpa using hlen
          · intro o ho
            simp only [List.mem_map] at ho
            obtain ⟨o', ho', rfl⟩ := ho
            have hs := List.all_eq_true.mp hfilter o' ho'
            cases o' with
            | none => simp at hs
            | some v => rfl
        · simp only [List.map_map]
          rfl

/-- C7 witness: a concrete two-row download for which the returned table is
fully aligned. -/
theorem price_table_aligned_witness :
    (∀ r ∈ presW.closeRounded,
      r.2.length = presW.colNames.length ∧ ∀ o ∈ r.2, o.isSome = true) ∧
    presW.cumRet.map Prod.fst = presW.closeRounded.map Prod.fst :=
  price_table_aligned ["A", "B"] dW presW price_data_dW_eval

/-- C8: when the aligned close table is non-empty and the first row's values
are all non-zero, the first row of the cumulative-return series
(`close_df / close_df.iloc[0] - 1`) is 0 in every column. -/
theorem cum_ret_first_zero (T : List String) (d : Download)
    (res : PriceResult) (r0 : Nat × List (Option ℚ))
    (h : price_data T d = Except.ok res)
    (h0 : (alignedRows T d).head? = some r0)
    (hnz : ∀ v : ℚ, some v ∈ r0.2 → v ≠ 0) :
    ∃ c0, res.cumRet.head? = some c0 ∧ ∀ o ∈ c0.2, o = some (0 : ℚ) := by
  unfold price_data at h
  split at h
  · exact Except.noConfusion h
  · split at h
    · exact Except.noConfusion h
    · split at h
      · exact Except.noConfusion h
      · rename_i h1 h2 r0' rest h3
        injection h with h4
        subst h4
        rw [h3] at h0
        simp only [List.head?_cons, Option.some_inj] at h0
        subst h0
        refine ⟨(r0'.1, List.zipWith divCell r0'.2 r0'.2), rfl, ?_⟩
        intro o ho
        rw [List.zipWith_same] at ho
        simp only [List.mem_map] at ho
        obtain ⟨a, ha, rfl⟩ := ho
        have hmem : r0' ∈ alignedRows T d := by
          rw [h3]; exact List.mem_cons_self _ _
        unfold alignedRows at hmem
        have hfilter := List.of_mem_filter hmem
        have hs := List.all_eq_true.mp hfilter a ha
        cases a with
        | none => simp at hs
        | some v =>
          have hv : v ≠ 0 := hnz v ha
          simp [divCell, div_self hv]

/-- C8 witness: for the concrete download above, the cumulative-return
series starts at zero. -/
theorem cum_ret_first_zero_witness :
    ∃ c0, presW.cumRet.head? = some c0 ∧ ∀ o ∈ c0.2, o = some (0 : ℚ) :=
  cum_ret_first_zero ["A", "B"] dW presW (5, [some 1]) price_data_dW_eval
    (by decide)
    (by intro v hv; simp at hv; subst hv; norm_num)

/-- C4: when the delivery credential is absent or empty, `send_newsletter`
fails with the configuration error, and it does so for every conceivable
e-mail service — the outcome does not depend on the service at all, so no
network call is attempted; conversely, when a credential is present the
configuration error is never raised. -/
theorem send_newsletter_config (k : Option String)
    (svc : MailMsg → Except Unit Receipt) (to_email md_body img64 : String) :
    (k.getD "" = "" →
      ∀ svc' : MailMsg → Except Unit Receipt,
        send_newsletter k svc' to_email md_body img64 =
          Except.error SendError.config) ∧
    (k.getD "" ≠ "" →
      send_newsletter k svc to_email md_body img64 ≠
        Except.error SendError.config) := by
  constructor
  · intro hk svc'
    show (if k.getD "" = "" then _ else _) = _
    rw [if_pos hk]
  · intro hk
    show (if k.getD "" = "" then Except.error SendError.config
          else match svc (msg_of to_email md_body img64) with
            | .error _ => Except.error SendError.delivery
            | .ok r =>
              Except.ok (none, [toString r.statusCode, r.body, r.headers])) ≠ _
    rw [if_neg hk]
    cases svc (msg_of to_email md_body img64) with
    | error e =>
      intro hc
      exact SendError.noConfusion (Except.error.inj hc)
    | ok r =>
      intro hc
      exact Except.noConfusion hc

/-- C4 witness: an unset credential yields the configuration error, a set
credential does not. -/
theorem send_newsletter_config_witness :
    send_newsletter none (fun _ => Except.ok ⟨202, "B", "H"⟩)
        "to" "body" "img" = Except.error SendError.config ∧
    send_newsletter (some "K") (fun _ => Except.ok ⟨202, "B", "H"⟩)
        "to" "body" "img" ≠ Except.error SendError.config :=
  ⟨(send_newsletter_config none (fun _ => Except.ok ⟨202, "B", "H"⟩)
      "to" "body" "img").1 rfl _,
   (send_newsletter_config (some "K") (fun _ => Except.ok ⟨202, "B", "H"⟩)
      "to" "body" "img").2 (by decide)⟩

/-- C9 counterexample: a successful delivery on which `send_newsletter`
returns no receipt to its caller — the Python function prints the response
fields and returns None, so the returned value carries no receipt. -/
theorem send_newsletter_returns_none_cex :
    (send_newsletter (some "K") (fun _ => Except.ok ⟨202, "B", "H"⟩)
        "to" "body" "img").map (fun x => x.1.isSome) = Except.ok false := by
  decide

/-- C9 (amended): on a successful delivery `send_newsletter` prints the
service's status code, body and headers to standard output and returns None
to its caller (no receipt value is returned). -/
theorem send_newsletter_prints_receipt (k : Option String)
    (svc : MailMsg → Except Unit Receipt) (to_email md_body img64 : String)
    (r : Receipt) (hk : k.getD "" ≠ "")
    (hs : svc (msg_of to_email md_body img64) = Except.ok r) :
    send_newsletter k svc to_email md_body img64 =
      Except.ok (none, [toString r.statusCode, r.body, r.headers]) := by
  show (if k.getD "" = "" then Except.error SendError.config
        else match svc (msg_of to_email md_body img64) with
          | .error _ => Except.error SendError.delivery
          | .ok r =>
            Except.ok (none, [toString r.statusCode, r.body, r.headers])) = _
  rw [if_neg hk, hs]

/-- C9 witness: a concrete successful delivery, with the printed lines and
the absent return value. -/
theorem send_newsletter_prints_receipt_witness :
    send_newsletter (some "K") (fun _ => Except.ok ⟨202, "B", "H"⟩)
        "to" "body" "img" =
      Except.ok (none, [toString (202 : Nat), "B", "H"]) :=
  send_newsletter_prints_receipt (some "K")
    (fun _ => Except.ok ⟨202, "B", "H"⟩) "to" "body" "img"
    ⟨202, "B", "H"⟩ (by decide) rfl
